import Mathlib

/-!
Shallow embedding of the order-lifecycle logic of the `tracker` Django app
(files `src/tracker/views_start_order.py` and `src/tracker/admin.py`).

Text is modelled as lists of character codes (`Str := List Nat`), time as
integer seconds since an arbitrary epoch (`Time := Int`), and the database as
explicit lists of rows threaded through each operation.  Functions named after
the Python views embed those views' logic; helpers from modules that are not
part of the corpus (`tracker/services.py`, `tracker/utils`) are modelled from
the specification and marked as such in their doc comments.
-/

/-- Text: a Python string modelled as its list of character codes. -/
abbrev Str := List Nat

/-- Time in integer seconds; durations in the model are in seconds unless a
field is documented as minutes (`actual_duration`, `estimated_duration`). -/
abbrev Time := Int

/-- Character codes of a Lean string literal, used to write concrete text. -/
def str (s : String) : Str := s.data.map (·.toNat)

/-- Whitespace set of Python's `str.strip` restricted to ASCII
(space, tab, LF, CR, VT, FF). -/
def isPySpace (c : Nat) : Bool := c = 32 || c = 9 || c = 10 || c = 13 || c = 11 || c = 12

/-- ASCII lower-casing of one character code, as Python's `str.lower` acts on
ASCII letters. -/
def lowerChar (c : Nat) : Nat := if 65 ≤ c ∧ c ≤ 90 then c + 32 else c

/-- ASCII upper-casing of one character code, as Python's `str.upper` acts on
ASCII letters. -/
def upperChar (c : Nat) : Nat := if 97 ≤ c ∧ c ≤ 122 then c - 32 else c

/-- Python `s.strip()`: drop leading and trailing whitespace. -/
def pyStrip (s : Str) : Str :=
  (((s.dropWhile isPySpace).reverse).dropWhile isPySpace).reverse

/-- Python `(s or '').strip().upper()`, the plate normalisation applied by
`api_start_order` (line 47) and `api_check_plate` (line 239). -/
def pyStripUpper (s : Str) : Str := (pyStrip s).map upperChar

/-- Python `s.lower()` on ASCII text. -/
def pyLower (s : Str) : Str := s.map lowerChar

/-- Django's `__iexact` lookup: case-insensitive exact match. -/
def iexact (a b : Str) : Bool := pyLower a = pyLower b

/-- Join a list of strings with a separator, as Python's `sep.join(xs)`. -/
def joinSep (sep : Str) (xs : List Str) : Str :=
  match xs with
  | [] => []
  | x :: rest => rest.foldl (fun acc y => acc ++ sep ++ y) x

/-- Order status values (`Order.STATUS_CHOICES`). -/
inductive Status
  | created
  | in_progress
  | overdue
  | completed
  | cancelled
deriving DecidableEq, Repr

/-- Order row.  Text fields use `[]`/`none` for Python `''`/`None`;
`actual_duration` and `estimated_duration` are minutes.  The immutable
server-generated `order_number` is not modelled: responses carry `id`. -/
structure Order where
  id : Nat
  branch : Option Nat
  customer : Nat
  vehicle : Option Nat
  type : Str
  status : Status
  priority : Str
  description : Str
  item_name : Str
  brand : Str
  quantity : Option Int
  tire_type : Str
  estimated_duration : Option Int
  actual_duration : Option Int
  created_at : Time
  started_at : Option Time
  completed_at : Option Time
  completion_date : Option Time
  cancelled_at : Option Time
  delay_reason : Option Nat
  delay_reason_reported_at : Option Time
  delay_reason_reported_by : Option Nat
  overrun_reason : Str
  overrun_reported_at : Option Time
  overrun_reported_by : Option Nat
  exceeded_9_hours : Bool
deriving DecidableEq, Repr

/-- Allowed status transitions as written in
`OrderAdmin.formfield_for_choice_field` (admin.py lines 223-229). -/
def transitions (s : Status) : List Status :=
  match s with
  | .created => [.in_progress, .cancelled]
  | .in_progress => [.overdue, .completed, .cancelled]
  | .overdue => [.completed, .cancelled]
  | .completed => []
  | .cancelled => []

/-- Status choices the admin form offers for an existing order: the allowed
transitions with the current status appended
(`allowed_statuses.append(current_status)`, admin.py lines 230-236). -/
def adminStatusChoices (current : Status) : List Status :=
  transitions current ++ [current]

/-- Embeds `api_quick_stop_order`'s mutation of the fetched order
(views_start_order.py lines 1395-1407): unconditionally set `started_at` if
unset, mark completed, stamp `completed_at`/`completion_date`, and compute
`actual_duration = int(((now - reference).total_seconds()) // 60)` where
`reference = order.started_at or order.created_at or now`. -/
def quickStopUpdate (now : Time) (o : Order) : Order :=
  let o' := if o.started_at.isNone then { o with started_at := some now } else o
  let reference : Time := o'.started_at.getD o'.created_at
  { o' with
    status := .completed
    completed_at := some now
    completion_date := some now
    actual_duration := some (Int.fdiv (now - reference) 60) }

/-- Branch row (`tracker.models.Branch`): `parent = none` marks a main branch. -/
structure Branch where
  id : Nat
  parent : Option Nat
  is_active : Bool
deriving DecidableEq, Repr

/-- Principal: a user as the branch-scoping code sees it
(`request.user.is_superuser`, `request.user.profile.branch`). -/
structure Principal where
  is_superuser : Bool
  branch : Option Nat
deriving DecidableEq, Repr

/-- Branch ids visible to a principal, as computed by
`BranchAdmin.get_queryset` (admin.py lines 100-112): a superuser sees all,
a main-branch user sees its branch plus direct sub-branches, a sub-branch user
sees only its branch, a user with no branch sees nothing. -/
def visibleBranchIds (branches : List Branch) (p : Principal) : List Nat :=
  if p.is_superuser then branches.map (·.id)
  else
    match p.branch with
    | none => []
    | some ub =>
      match (branches.find? (fun b => b.id = ub)).bind (·.parent) with
      | none => (branches.filter (fun b => b.id = ub || b.parent = some ub)).map (·.id)
      | some _ => (branches.filter (fun b => b.id = ub)).map (·.id)

/-- Embeds the order fetch of `started_order_detail`
(views_start_order.py line 410): `get_object_or_404(Order, id=order_id)` —
lookup by id only, with no branch restriction on the queryset. -/
def startedOrderDetailFetch (orders : List Order) (order_id : Nat) : Option Order :=
  orders.find? (fun o => o.id = order_id)

/-- Branch-mismatch flag of `started_order_detail`
(views_start_order.py lines 411-413); it is only handed to the template and
gates none of the POST actions. -/
def branchMismatch (user_branch : Option Nat) (o : Order) : Bool :=
  match user_branch, o.branch with
  | some ub, some ob => ob ≠ ub
  | _, _ => false

/-- Modelled from the spec: `is_order_overdue` lives in
`tracker/utils/time_utils.py`, which is not part of the corpus.  The spec
fixes the overdue threshold at 2 hours of elapsed time since `started_at`,
so the order is overdue when more than 7200 seconds have elapsed. -/
def is_order_overdue (started_at : Time) (now : Time) : Bool :=
  decide (7200 < now - started_at)

/-- Truthy test the complete action applies to `order.actual_duration and
order.actual_duration >= (9 * 60)` (views_start_order.py line 578):
`None` and `0` are falsy, otherwise the comparison with 540 minutes decides. -/
def measuredExceeds540 (d : Option Int) : Bool :=
  match d with
  | none => false
  | some v => decide (v ≠ 0) && decide (540 ≤ v)

/-- Guard of the `complete_order` action (views_start_order.py lines 575-579):
a delay reason is required only when `started_at` is set, and then either the
order is `in_progress` and `is_order_overdue(started_at)` holds, or the
measured `actual_duration` is at least 9*60 = 540 minutes. -/
def completeExceedsGuard (o : Order) (now : Time) : Bool :=
  match o.started_at with
  | none => false
  | some st =>
    if o.status = .in_progress then is_order_overdue st now
    else measuredExceeds540 o.actual_duration

/-- Outcome of the `complete_order` action: an error redirect leaves the
stored order unchanged, success stores the updated order. -/
inductive CompleteOutcome
  | delayReasonRequired
  | delayReasonNotFound
  | completed (o : Order)
deriving DecidableEq, Repr

/-- Delay-reason step of the `complete_order` action
(views_start_order.py lines 570-607).  `delayReasons` is the set of existing
`DelayReason` ids and `delay_reason_id` the posted `delay_reason` field.
When the guard holds, a missing or unknown reason id aborts with an error
redirect and no save (`none`); otherwise an optional reason is recorded if
present and known, an unknown optional id only logging a warning. -/
def completeDelayStep (delayReasons : List Nat) (user : Nat) (now : Time)
    (delay_reason_id : Option Nat) (o : Order) : Option Order :=
  if completeExceedsGuard o now then
    match delay_reason_id with
    | none => none
    | some rid =>
      if delayReasons.contains rid then
        some { o with
          delay_reason := some rid
          delay_reason_reported_at := some now
          delay_reason_reported_by := some user
          exceeded_9_hours := true }
      else none
  else
    match delay_reason_id with
    | none => some o
    | some rid =>
      if delayReasons.contains rid then
        some { o with
          delay_reason := some rid
          delay_reason_reported_at := some now
          delay_reason_reported_by := some user }
      else some o

/-- Embeds the `complete_order` action of `started_order_detail`
(views_start_order.py lines 570-627): the delay-reason step, then the
optional comments stamping the sticky overrun fields
(`overrun_reported_at = overrun_reported_at or now`, lines 610-614), then
the save as completed with `completed_at = now`. -/
def completeOrderAction (delayReasons : List Nat) (user : Nat) (now : Time)
    (delay_reason_id : Option Nat) (comments : Str) (o : Order) : CompleteOutcome :=
  match completeDelayStep delayReasons user now delay_reason_id o with
  | none =>
    if delay_reason_id.isNone then .delayReasonRequired else .delayReasonNotFound
  | some o1 =>
    let o2 :=
      if pyStrip comments ≠ ([] : Str) then
        { o1 with
          overrun_reason := pyStrip comments
          overrun_reported_at := some (o1.overrun_reported_at.getD now)
          overrun_reported_by := some (o1.overrun_reported_by.getD user) }
      else o1
    .completed { o2 with status := .completed, completed_at := some now }

/-- Embeds `api_record_overrun_reason` (views_start_order.py lines 1307-1322)
applied to a fetched order: a blank reason is rejected, otherwise
`overrun_reason`, `overrun_reported_at` and `overrun_reported_by` are
assigned unconditionally and saved. -/
def recordOverrunReason (user : Nat) (now : Time) (reason : Str) (o : Order) :
    Option Order :=
  let r := pyStrip reason
  if r = ([] : Str) then none
  else some { o with
    overrun_reason := r
    overrun_reported_at := some now
    overrun_reported_by := some user }

/-- Customer row (`tracker.models.Customer`). -/
structure Customer where
  id : Nat
  branch : Option Nat
  full_name : Str
  phone : Option Str
  customer_type : Str
  personal_subtype : Option Str
  organization_name : Option Str
  tax_number : Option Str
  email : Option Str
  address : Option Str
  total_visits : Nat
  last_visit : Option Time
deriving DecidableEq, Repr

/-- Vehicle row (`tracker.models.Vehicle`). -/
structure Vehicle where
  id : Nat
  customer : Nat
  plate_number : Str
  make : Option Str
  model : Option Str
deriving DecidableEq, Repr

/-- Service type catalog row. -/
structure ServiceType where
  name : Str
  estimated_minutes : Option Int
  is_active : Bool
deriving DecidableEq, Repr

/-- Service add-on catalog row. -/
structure ServiceAddon where
  name : Str
  estimated_minutes : Option Int
  is_active : Bool
deriving DecidableEq, Repr

/-- Labour code catalog row (`tracker.models.LabourCode`). -/
structure LabourCode where
  id : Nat
  code : Str
  description : Str
  item_name : Str
  brand : Str
  quantity : Option Int
  tire_type : Str
  is_active : Bool
deriving DecidableEq, Repr

/-- Inventory item row; `brand` is the related brand's name when the foreign
key is set. -/
structure InventoryItem where
  id : Nat
  name : Str
  brand : Option Str
  is_active : Bool
deriving DecidableEq, Repr

/-- Database state threaded through the operations: row lists plus fresh-id
counters for created rows.  `delayReasons` is the set of existing
`DelayReason` ids. -/
structure DB where
  branches : List Branch
  customers : List Customer
  vehicles : List Vehicle
  orders : List Order
  serviceTypes : List ServiceType
  serviceAddons : List ServiceAddon
  labourCodes : List LabourCode
  inventoryItems : List InventoryItem
  delayReasons : List Nat
  nextCustomerId : Nat
  nextVehicleId : Nat
  nextOrderId : Nat
deriving DecidableEq, Repr

/-- Parameters of the item-resolution block of the `update_order_details`
action.  The Python view normalises each POST field with `or None`
(views_start_order.py lines 448-455), so blank strings arrive as `none`;
numeric fields are shown parsed, an unparseable id behaving as an absent or
unknown one (the surrounding `except` clauses fall through). -/
structure ItemResolutionParams where
  labour_code_id : Option Nat
  item_name_manual : Option Str
  item_brand_manual : Option Str
  item_id : Option Nat
  item_quantity : Option Int
deriving DecidableEq, Repr

/-- Priority 1 of the item resolution (views_start_order.py lines 474-490):
an active labour code with a truthy `item_name` sets item/brand (and
quantity/tire_type when truthy); an unknown or inactive code, or one with an
empty `item_name`, leaves `item_updated` false and resolution falls through
to the next candidate. -/
def labourCodeCandidate (db : DB) (lid? : Option Nat) (o : Order) : Option Order :=
  match lid? with
  | none => none
  | some lid =>
    match db.labourCodes.find? (fun lc => lc.id = lid && lc.is_active) with
    | none => none
    | some lc =>
      if lc.item_name ≠ ([] : Str) then
        let o1 := { o with item_name := lc.item_name,
                           brand := if lc.brand = ([] : Str) then str "Unbranded" else lc.brand }
        let o2 := match lc.quantity with
                  | some q => if q ≠ 0 then { o1 with quantity := some q } else o1
                  | none => o1
        some (if lc.tire_type ≠ ([] : Str) then { o2 with tire_type := lc.tire_type } else o2)
      else none

/-- Embeds the item/brand resolution of the `update_order_details` action
(views_start_order.py lines 471-520), run only when the order type is
`sales`, `service` or `labour`: the labour-code candidate first, then manual
item name/brand, then an inventory item looked up by id alone. -/
def resolveOrderItem (db : DB) (p : ItemResolutionParams) (o : Order) : Order :=
  if o.type = str "sales" ∨ o.type = str "service" ∨ o.type = str "labour" then
    match labourCodeCandidate db p.labour_code_id o with
    | some o' => o'
    | none =>
      match p.item_name_manual with
      | some nm =>
        let o1 := { o with item_name := nm,
                           brand := p.item_brand_manual.getD (str "Unbranded") }
        match p.item_quantity with
        | some q => { o1 with quantity := some q }
        | none => o1
      | none =>
        match p.item_id with
        | none => o
        | some iid =>
          match db.inventoryItems.find? (fun it => it.id = iid) with
          | none => o
          | some it =>
            let o1 := { o with item_name := it.name,
                               brand := it.brand.getD (str "Unbranded") }
            match p.item_quantity with
            | some q => { o1 with quantity := some q }
            | none => o1
  else o

/-- Modelled from the spec: `CustomerService.create_or_get_customer`
(`tracker/services.py`, not in the corpus).  Per spec §4.2 it resolves or
creates the customer inside the order transaction; the model looks up an
existing customer by branch, full name and phone and otherwise persists one
carrying exactly the supplied fields — fields not supplied by the caller
(such as `personal_subtype` in `api_start_order`'s synthesis) stay unset. -/
def create_or_get_customer (db : DB) (branch : Option Nat) (full_name : Str)
    (phone : Option Str) (customer_type : Str) (personal_subtype : Option Str)
    (organization_name : Option Str) (tax_number : Option Str)
    (email : Option Str) (address : Option Str) : Customer × DB :=
  match db.customers.find? (fun c =>
      c.branch = branch && c.full_name = full_name && c.phone = phone) with
  | some c => (c, db)
  | none =>
    let c : Customer :=
      { id := db.nextCustomerId, branch := branch, full_name := full_name
        phone := phone, customer_type := customer_type
        personal_subtype := personal_subtype
        organization_name := organization_name, tax_number := tax_number
        email := email, address := address, total_visits := 0, last_visit := none }
    (c, { db with customers := db.customers ++ [c]
                  nextCustomerId := db.nextCustomerId + 1 })

/-- Modelled from the spec: `VehicleService.create_or_get_vehicle`
(`tracker/services.py`, not in the corpus).  Resolves the customer's vehicle
by plate (plates are matched case-insensitively throughout the views) or
creates it. -/
def create_or_get_vehicle (db : DB) (customer : Nat) (plate : Str)
    (make model : Option Str) : Vehicle × DB :=
  match db.vehicles.find? (fun v =>
      v.customer = customer && iexact v.plate_number plate) with
  | some v => (v, db)
  | none =>
    let v : Vehicle :=
      { id := db.nextVehicleId, customer := customer, plate_number := plate
        make := make, model := model }
    (v, { db with vehicles := db.vehicles ++ [v]
                  nextVehicleId := db.nextVehicleId + 1 })

/-- Modelled from the spec: `CustomerService.update_customer_visit`
(`tracker/services.py`, not in the corpus).  Spec §4.2: reuse or creation
touches the customer's visit counters exactly once —
`total_visits += 1`, `last_visit = now`. -/
def updateCustomerVisit (db : DB) (cid : Nat) (now : Time) : DB :=
  { db with customers := db.customers.map (fun c =>
      if c.id = cid then { c with total_visits := c.total_visits + 1
                                  last_visit := some now }
      else c) }

/-- Modelled from the spec: `OrderService.create_order`
(`tracker/services.py`, not in the corpus).  Spec §4.2 step 5: persists a new
order in state `created` with the supplied fields and touches the customer's
visit counters (the view calls it "to ensure proper visit tracking"). -/
def orderServiceCreate (db : DB) (now : Time) (customer : Customer)
    (order_type : Str) (branch : Option Nat) (vehicle : Option Nat)
    (description : Str) (priority : Str) (estimated_duration : Option Int) :
    Order × DB :=
  let o : Order :=
    { id := db.nextOrderId, branch := branch, customer := customer.id
      vehicle := vehicle, type := order_type, status := .created
      priority := priority, description := description
      item_name := [], brand := [], quantity := none, tire_type := []
      estimated_duration := estimated_duration, actual_duration := none
      created_at := now, started_at := none, completed_at := none
      completion_date := none, cancelled_at := none
      delay_reason := none, delay_reason_reported_at := none
      delay_reason_reported_by := none, overrun_reason := []
      overrun_reported_at := none, overrun_reported_by := none
      exceeded_9_hours := false }
  let db1 := { db with orders := db.orders ++ [o]
                       nextOrderId := db.nextOrderId + 1 }
  (o, updateCustomerVisit db1 customer.id now)

/-- Parameters accepted by `api_start_order`
(views_start_order.py lines 46-53). -/
structure StartOrderParams where
  order_type : Str
  use_existing_customer : Bool
  existing_customer_id : Option Nat
  service_selection : List Str
  estimated_duration : Option Int
  force_new_order : Bool
deriving DecidableEq, Repr

/-- Response of `api_start_order`: the 400 errors, the early return carrying
`existing_order: True` (lines 94-102), the customer-found response
(lines 105-119), and the 201 creation/reuse response (lines 216-224). -/
inductive StartOrderResp
  | badRequest (msg : Str)
  | existingOrderFound (order_id : Nat)
  | customerFound (customer_id : Nat) (vehicle_id : Nat)
  | started (order_id : Nat) (status : Status)
deriving DecidableEq, Repr

/-- Order types `api_start_order` accepts (views_start_order.py line 59). -/
def validOrderTypes : List Str :=
  [str "service", str "sales", str "inquiry", str "labour",
   str "unspecified", str "mixed"]

/-- Vehicle lookup
`Vehicle.objects.filter(plate_number__iexact=plate, customer__branch=user_branch).first()`
(views_start_order.py lines 84 and 244). -/
def vehicleByPlate (db : DB) (user_branch : Option Nat) (plate : Str) :
    Option Vehicle :=
  db.vehicles.find? (fun v =>
    iexact v.plate_number plate &&
    (match db.customers.find? (fun c => c.id = v.customer) with
     | some c => c.branch = user_branch
     | none => false))

/-- First order of `l` under `.order_by` on `key` descending
(`.first()` of a descending sort); on ties the earlier row of the model's
list order is kept. -/
def latestBy (key : Order → Int) (l : List Order) : Option Order :=
  l.foldl (fun acc o =>
    match acc with
    | none => some o
    | some b => if key b < key o then some o else some b) none

/-- Open order used by the dedup early return
(views_start_order.py lines 87-90): orders of the vehicle in state
`created`/`in_progress`, newest `created_at` first. -/
def openOrderFor (db : DB) (vid : Nat) : Option Order :=
  latestBy (·.created_at) (db.orders.filter (fun o =>
    o.vehicle = some vid && (o.status = .created || o.status = .in_progress)))

/-- Decimal digits of a natural number, used for the synthesised
timestamp-based customer name. -/
def natDigits (n : Nat) : Str := (toString n).data.map (·.toNat)

/-- Timestamp text standing in for `timezone.now().strftime('%Y%m%d%H%M')`. -/
def timeText (t : Time) : Str := natDigits t.toNat

/-- Creation phase of `api_start_order` (views_start_order.py lines 121-224):
synthesise a customer from the plate when none was chosen, upsert the
vehicle, compute the estimated duration from any selected services, build the
description, reuse a `created` order (newest first) or an
`in_progress`/`overdue` order, and otherwise create a new order in state
`created`.  Visit counters are touched exactly once per reuse or creation. -/
def startOrderCreatePhase (db : DB) (user_branch : Option Nat) (now : Time)
    (plate : Str) (p : StartOrderParams) (chosen : Option Customer) :
    StartOrderResp × DB :=
  let custStep : Customer × DB :=
    match chosen with
    | some c => (c, db)
    | none =>
      let name_src := if plate ≠ ([] : Str) then plate
                      else str "Customer " ++ timeText now
      let full_name := if plate ≠ ([] : Str) then str "Plate " ++ name_src
                       else name_src
      let phone_src := if plate ≠ ([] : Str) then some (str "PLATE_" ++ plate)
                       else none
      create_or_get_customer db user_branch full_name phone_src
        (str "personal") none none none none none
  let customer := custStep.1
  let db1 := custStep.2
  let vehStep : Option Vehicle × DB :=
    if plate ≠ ([] : Str) then
      let r := create_or_get_vehicle db1 customer.id plate none none
      (some r.1, r.2)
    else (none, db1)
  let vehicle := vehStep.1
  let db2 := vehStep.2
  let est : Option Int :=
    if p.service_selection ≠ [] ∧ p.order_type = str "service" then
      let svcMin := ((db2.serviceTypes.filter (fun s =>
        p.service_selection.contains s.name && s.is_active)).map
          (fun s => s.estimated_minutes.getD 0)).sum
      let addMin := ((db2.serviceAddons.filter (fun a =>
        p.service_selection.contains a.name)).map
          (fun a => a.estimated_minutes.getD 0)).sum
      if svcMin + addMin ≠ 0 then some (svcMin + addMin)
      else p.estimated_duration
    else p.estimated_duration
  let desc :=
    str "Order started" ++
    (if plate ≠ ([] : Str) then str " for " ++ plate else []) ++
    (if p.service_selection ≠ [] then
       str ": " ++ joinSep (str ", ") p.service_selection
     else [])
  let reuseCreated : Option Order :=
    if ¬p.force_new_order then
      match vehicle with
      | some v => latestBy (·.created_at) (db2.orders.filter (fun o =>
          o.vehicle = some v.id && o.status = .created))
      | none => none
    else none
  match reuseCreated with
  | some o => (.started o.id o.status, updateCustomerVisit db2 customer.id now)
  | none =>
    let reuseActive : Option Order :=
      if ¬p.force_new_order then
        match vehicle with
        | some v => latestBy (fun o => (o.started_at.getD o.created_at))
            (db2.orders.filter (fun o =>
              o.vehicle = some v.id &&
              (o.status = .in_progress || o.status = .overdue)))
        | none => none
      else none
    match reuseActive with
    | some o => (.started o.id o.status, updateCustomerVisit db2 customer.id now)
    | none =>
      let r := orderServiceCreate db2 now customer p.order_type user_branch
        (vehicle.map (·.id)) desc (str "medium") est
      (.started r.1.id r.1.status, r.2)

/-- Body of `api_start_order` after plate normalisation
(views_start_order.py lines 55-224): parameter validation, selection of a
pre-chosen customer, the dedup early returns, then the creation phase. -/
def apiStartOrderBody (db : DB) (user_branch : Option Nat) (now : Time)
    (plate : Str) (p : StartOrderParams) : StartOrderResp × DB :=
  if plate = ([] : Str) ∧ ¬(p.use_existing_customer ∧ p.existing_customer_id.isSome) then
    (.badRequest (str "Vehicle plate number is required"), db)
  else if ¬(validOrderTypes.contains p.order_type) then
    (.badRequest (str "Invalid order type"), db)
  else
    match p.existing_customer_id with
    | some cid =>
      let chosen : Option Customer :=
        match user_branch with
        | some ub => db.customers.find? (fun c => c.id = cid && c.branch = some ub)
        | none => db.customers.find? (fun c => c.id = cid)
      match chosen with
      | none => (.badRequest (str "Not found"), db)
      | some c =>
        let ub' := if user_branch.isNone then c.branch else user_branch
        startOrderCreatePhase db ub' now plate p (some c)
    | none =>
      if plate ≠ ([] : Str) ∧ ¬p.force_new_order then
        match vehicleByPlate db user_branch plate with
        | some v =>
          (match openOrderFor db v.id with
           | some o => (.existingOrderFound o.id, db)
           | none => (.customerFound v.customer v.id, db))
        | none => startOrderCreatePhase db user_branch now plate p none
      else startOrderCreatePhase db user_branch now plate p none

/-- Embeds `api_start_order` (views_start_order.py lines 27-224): the raw
plate is normalised with `.strip().upper()` (line 47) and the body runs on
the normalised plate. -/
def apiStartOrder (db : DB) (user_branch : Option Nat) (now : Time)
    (raw_plate : Str) (p : StartOrderParams) : StartOrderResp × DB :=
  apiStartOrderBody db user_branch now (pyStripUpper raw_plate) p

/-- Response of `api_check_plate`. -/
inductive CheckPlateResp
  | notFound
  | found (customer_id : Nat) (vehicle_id : Nat)
deriving DecidableEq, Repr

/-- Embeds `api_check_plate` (views_start_order.py lines 235-248): the raw
plate is normalised with `.strip().upper()` and matched case-insensitively
against the vehicles of the user's branch. -/
def apiCheckPlate (db : DB) (user_branch : Option Nat) (raw_plate : Str) :
    CheckPlateResp :=
  let plate := pyStripUpper raw_plate
  if plate = ([] : Str) then .notFound
  else
    match vehicleByPlate db user_branch plate with
    | none => .notFound
    | some v => .found v.customer v.id

/-- New-customer form fields of `api_create_order_from_modal`
(views_start_order.py lines 985-994), already `.strip()`-ed as the view does. -/
structure ModalCustomerForm where
  customer_type : Str
  personal_subtype : Str
  organization_name : Str
  tax_number : Str
  customer_name : Str
  phone : Str
  email : Str
  address : Str
deriving DecidableEq, Repr

/-- Validation of the modal's new-customer fields
(views_start_order.py lines 996-1027, customer parts): name and phone are
required, the customer type must be known, a personal customer needs a
`personal_subtype`, an organisational one needs both `organization_name` and
`tax_number`. -/
def modalCustomerValid (f : ModalCustomerForm) : Bool :=
  f.customer_name ≠ ([] : Str) && f.phone ≠ ([] : Str) &&
  (f.customer_type = str "personal" || f.customer_type = str "company" ||
   f.customer_type = str "government" || f.customer_type = str "ngo") &&
  (f.customer_type ≠ str "personal" || f.personal_subtype ≠ ([] : Str)) &&
  (¬(f.customer_type = str "company" || f.customer_type = str "government" ||
     f.customer_type = str "ngo") ||
   (f.organization_name ≠ ([] : Str) && f.tax_number ≠ ([] : Str)))

/-- Customer creation of `api_create_order_from_modal` after validation
(views_start_order.py lines 1029-1052): personal customers carry the
subtype, organisational ones the organisation name and tax number; the
`x or None` normalisation of the view maps blank strings to `none`. -/
def modalCreateCustomer (db : DB) (user_branch : Option Nat)
    (f : ModalCustomerForm) : Customer × DB :=
  let orNone : Str → Option Str := fun s => if s = [] then none else some s
  if f.customer_type = str "personal" then
    create_or_get_customer db user_branch f.customer_name (some f.phone)
      f.customer_type (some f.personal_subtype) none none
      (orNone f.email) (orNone f.address)
  else
    create_or_get_customer db user_branch f.customer_name (some f.phone)
      f.customer_type none (some f.organization_name) (some f.tax_number)
      (orNone f.email) (orNone f.address)

/-- Stated from the spec's words (data model §3, Customer invariant), to be
compared with the customers the code produces: organisational types require
non-empty `organization_name` and `tax_number`, the personal type requires
`personal_subtype` to be set. -/
def customerInvariantSpec (c : Customer) : Bool :=
  if c.customer_type = str "company" ∨ c.customer_type = str "government" ∨
     c.customer_type = str "ngo" then
    (match c.organization_name with | some s => s ≠ ([] : Str) | none => false) &&
    (match c.tax_number with | some s => s ≠ ([] : Str) | none => false)
  else if c.customer_type = str "personal" then
    c.personal_subtype.isSome
  else true

/-- Blank order used as the base of the concrete test rows below. -/
def baseOrder : Order :=
  { id := 0, branch := none, customer := 0, vehicle := none
    type := str "service", status := .created, priority := str "medium"
    description := [], item_name := [], brand := [], quantity := none
    tire_type := [], estimated_duration := none, actual_duration := none
    created_at := 0, started_at := none, completed_at := none
    completion_date := none, cancelled_at := none, delay_reason := none
    delay_reason_reported_at := none, delay_reason_reported_by := none
    overrun_reason := [], overrun_reported_at := none
    overrun_reported_by := none, exceeded_9_hours := false }

/-- Empty database with fresh-id counters at 1. -/
def emptyDB : DB :=
  { branches := [], customers := [], vehicles := [], orders := []
    serviceTypes := [], serviceAddons := [], labourCodes := []
    inventoryItems := [], delayReasons := []
    nextCustomerId := 1, nextVehicleId := 1, nextOrderId := 1 }

/-- Branch tree for the scoping scenario: main branch 0 with sub-branches 1
and 2. -/
def c1Branches : List Branch :=
  [{ id := 0, parent := none, is_active := true },
   { id := 1, parent := some 0, is_active := true },
   { id := 2, parent := some 0, is_active := true }]

/-- Non-superuser principal attached to sub-branch 1. -/
def c1Principal : Principal := { is_superuser := false, branch := some 1 }

/-- Order living in sibling sub-branch 2. -/
def c1Order : Order := { baseOrder with id := 7, branch := some 2, customer := 3 }

/-- Order that was never started: `created`, `started_at` unset, created at
time 0. -/
def c2NeverStarted : Order := { baseOrder with id := 1 }

/-- Overdue order with a measured duration of 200 minutes. -/
def c2Measured : Order :=
  { baseOrder with
    id := 2
    status := .overdue
    started_at := some 0
    actual_duration := some 200 }

/-- Cancelled order. -/
def c3Cancelled : Order :=
  { baseOrder with id := 3, status := .cancelled, cancelled_at := some 50 }

/-- Order started at time 0 and in progress. -/
def c4Started : Order :=
  { baseOrder with id := 4, status := .in_progress, started_at := some 0 }

/-- Default StartOrder options: `service` type, nothing preselected, no
forcing. -/
def defaultStartParams : StartOrderParams :=
  { order_type := str "service", use_existing_customer := false
    existing_customer_id := none, service_selection := []
    estimated_duration := none, force_new_order := false }

/-- Plate used in the dedup scenario. -/
def c5Plate : Str := str "T123ABC"

/-- Database after the first StartOrder call for `c5Plate` on the empty
database at time 100 in branch 1. -/
def c5Db1 : DB := (apiStartOrder emptyDB (some 1) 100 c5Plate defaultStartParams).2

/-- Vehicle the first StartOrder call creates. -/
def c5Vehicle : Vehicle :=
  { id := 1, customer := 1, plate_number := str "T123ABC", make := none, model := none }

/-- Order the first StartOrder call creates. -/
def c5Order1 : Order :=
  { baseOrder with
    id := 1
    branch := some 1
    customer := 1
    vehicle := some 1
    description := str "Order started for T123ABC"
    created_at := 100 }

/-- Order that was never started, for the quick-stop duration scenario. -/
def c6NeverStarted : Order := { baseOrder with id := 6 }

/-- Order whose overrun fields were already reported by user 1 at time 100. -/
def c7Order : Order :=
  { baseOrder with
    id := 8
    overrun_reason := str "first"
    overrun_reported_at := some 100
    overrun_reported_by := some 1 }

/-- Result of completing `c7Order` with comments `"late"` at time 300: the
already-set overrun stamps survive. -/
def c7Completed : Order :=
  { c7Order with
    overrun_reason := str "late"
    status := .completed
    completed_at := some 300 }

/-- Result of `api_record_overrun_reason` on `c7Order` by user 2 at time
200: the stamps are overwritten. -/
def c7Recorded : Order :=
  { c7Order with
    overrun_reason := str "second"
    overrun_reported_at := some 200
    overrun_reported_by := some 2 }

/-- Active labour code with item data. -/
def c8LC : LabourCode :=
  { id := 5, code := str "LC5", description := str "labour five"
    item_name := str "Tire X", brand := str "Acme", quantity := some 4
    tire_type := str "New", is_active := true }

/-- Inventory item competing with the labour code. -/
def c8Item : InventoryItem :=
  { id := 8, name := str "Shelf tire", brand := some (str "BrandB")
    is_active := true }

/-- Database holding both competing candidates. -/
def c8Db : DB := { emptyDB with labourCodes := [c8LC], inventoryItems := [c8Item] }

/-- Update parameters carrying a valid labour code id, manual item data and a
valid inventory item id at once. -/
def c8Params : ItemResolutionParams :=
  { labour_code_id := some 5, item_name_manual := some (str "Manual")
    item_brand_manual := some (str "MB"), item_id := some 8
    item_quantity := some 2 }

/-- Expected resolution: the labour code's item data wins. -/
def c8Resolved : Order :=
  { baseOrder with
    item_name := str "Tire X"
    brand := str "Acme"
    quantity := some 4
    tire_type := str "New" }

/-- Plate for the customer-synthesis scenario. -/
def c9Plate : Str := str "T55"

/-- Customer `api_start_order` synthesizes for `c9Plate` in branch 1 at time
100 (visit counters already touched by the order creation). -/
def c9Cust : Customer :=
  { id := 1, branch := some 1, full_name := str "Plate T55"
    phone := some (str "PLATE_T55"), customer_type := str "personal"
    personal_subtype := none, organization_name := none, tax_number := none
    email := none, address := none, total_visits := 1, last_visit := some 100 }

/-- Valid personal-customer form for the modal creation path. -/
def c9Form : ModalCustomerForm :=
  { customer_type := str "personal", personal_subtype := str "owner"
    organization_name := [], tax_number := [], customer_name := str "Jane"
    phone := str "0712", email := [], address := [] }

theorem upperChar_lowerChar (c : Nat) : upperChar (lowerChar c) = upperChar c := by
  simp only [upperChar, lowerChar]
  split_ifs <;> omega

theorem isPySpace_lowerChar (c : Nat) : isPySpace (lowerChar c) = isPySpace c := by
  simp only [lowerChar]
  split_ifs with h
  · have l : isPySpace (c + 32) = false := by
      simp only [isPySpace, Bool.or_eq_false_iff, decide_eq_false_iff_not]
      omega
    have r : isPySpace c = false := by
      simp only [isPySpace, Bool.or_eq_false_iff, decide_eq_false_iff_not]
      omega
    rw [l, r]
  · rfl

theorem pyStrip_pyLower (s : Str) : pyStrip (pyLower s) = pyLower (pyStrip s) := by
  have hp : (isPySpace ∘ lowerChar) = isPySpace := funext isPySpace_lowerChar
  simp only [pyStrip, pyLower, List.dropWhile_map, hp]
  rw [← List.map_reverse, List.dropWhile_map, hp, ← List.map_reverse]

theorem pyStripUpper_pyLower (s : Str) : pyStripUpper (pyLower s) = pyStripUpper s := by
  rw [pyStripUpper, pyStrip_pyLower, pyLower, pyStripUpper, List.map_map]
  congr 1
  exact funext upperChar_lowerChar

theorem pyStrip_wrap (s : Str) : pyStrip (32 :: s ++ [32]) = pyStrip s := by
  have h32 : isPySpace 32 = true := rfl
  have hcons : List.dropWhile isPySpace (32 :: s) = List.dropWhile isPySpace s := by
    rw [List.dropWhile_cons, h32]
    simp
  simp only [pyStrip]
  rw [List.dropWhile_append, hcons]
  by_cases h : (List.dropWhile isPySpace s).isEmpty = true
  · rw [if_pos h]
    rw [List.isEmpty_iff] at h
    rw [h]
    rfl
  · rw [if_neg h]
    rw [List.reverse_append]
    rw [List.reverse_singleton, List.singleton_append, List.dropWhile_cons, h32]
    simp

theorem pyStripUpper_wrap (s : Str) :
    pyStripUpper (32 :: s ++ [32]) = pyStripUpper s := by
  rw [pyStripUpper, pyStrip_wrap, pyStripUpper]

/-- C10: plate numbers are normalised on input with `.strip().upper()` and
matched case-insensitively, so `api_start_order` and `api_check_plate`
behave identically on a plate, on its lower-cased form, and on the plate
surrounded by whitespace: the whole outcome (response and resulting
database), hence the resolved vehicle and the dedup decision, coincide. -/
theorem c10_plate_normalisation :
    (∀ (db : DB) (ub : Option Nat) (now : Time) (plate : Str) (p : StartOrderParams),
       apiStartOrder db ub now (pyLower plate) p = apiStartOrder db ub now plate p ∧
       apiStartOrder db ub now (32 :: plate ++ [32]) p = apiStartOrder db ub now plate p) ∧
    (∀ (db : DB) (ub : Option Nat) (plate : Str),
       apiCheckPlate db ub (pyLower plate) = apiCheckPlate db ub plate ∧
       apiCheckPlate db ub (32 :: plate ++ [32]) = apiCheckPlate db ub plate) := by
  constructor
  · intro db ub now plate p
    constructor
    · show apiStartOrderBody db ub now (pyStripUpper (pyLower plate)) p = _
      rw [pyStripUpper_pyLower]
      rfl
    · show apiStartOrderBody db ub now (pyStripUpper (32 :: plate ++ [32])) p = _
      rw [pyStripUpper_wrap]
      rfl
  · intro db ub plate
    constructor
    · show (if pyStripUpper (pyLower plate) = ([] : Str) then _ else _) = _
      rw [pyStripUpper_pyLower]
      rfl
    · show (if pyStripUpper (32 :: plate ++ [32]) = ([] : Str) then _ else _) = _
      rw [pyStripUpper_wrap]
      rfl

/-- C1: the claim fails on the code.  A non-superuser principal of
sub-branch 1 has visible branch set `[1]` (per `BranchAdmin.get_queryset`),
yet `started_order_detail` fetches order 7 of sibling sub-branch 2 by id
with no branch filter — it only computes the unused `branch_mismatch` flag —
and its `complete_order` action mutates the order to completed.  A
sub-branch principal therefore can read and mutate a sibling sub-branch's
order. -/
theorem c1_cross_branch_access :
    visibleBranchIds c1Branches c1Principal = [1] ∧
    (visibleBranchIds c1Branches c1Principal).contains 2 = false ∧
    startedOrderDetailFetch [c1Order] 7 = some c1Order ∧
    c1Order.branch = some 2 ∧
    branchMismatch c1Principal.branch c1Order = true ∧
    completeOrderAction [] 9 18000 none [] c1Order =
      .completed { c1Order with status := .completed, completed_at := some 18000 } := by
  decide

/-- C2: the claim fails on the code.  An order that was never started
(`started_at` unset) completes with no delay reason after 300 minutes
(18000 s) of elapsed time since `created_at`, because the guard checks
nothing when `started_at` is unset; and an order with a measured
`actual_duration` of 200 minutes (≥ 120) also completes with no delay
reason, because the measured branch of the guard compares against
`9 * 60 = 540` minutes even though its own error message says 2 hours. -/
theorem c2_threshold_not_enforced :
    (completeExceedsGuard c2NeverStarted 18000 = false ∧
     Int.fdiv (18000 - c2NeverStarted.created_at) 60 = 300 ∧
     completeOrderAction [1, 2] 9 18000 none [] c2NeverStarted =
       .completed { c2NeverStarted with status := .completed, completed_at := some 18000 }) ∧
    (measuredExceeds540 (some 200) = false ∧
     c2Measured.actual_duration = some 200 ∧
     completeOrderAction [1, 2] 9 500 none [] c2Measured =
       .completed { c2Measured with status := .completed, completed_at := some 500 }) := by
  decide

/-- C3 counterexample: `api_quick_stop_order` applies no transition guard,
so it moves a cancelled order — a terminal state with no allowed outbound
transitions — to completed, changing its status. -/
theorem c3_terminal_escape_counterexample :
    transitions .cancelled = [] ∧
    c3Cancelled.status = .cancelled ∧
    (quickStopUpdate 600 c3Cancelled).status = .completed ∧
    (quickStopUpdate 600 c3Cancelled).status ≠ c3Cancelled.status := by
  decide

/-- C3 (amended): the admin status form offers only the allowed-transition
table's targets plus the current status, but the quick-stop path performs no
transition guard at all — it sets any fetched order to completed regardless
of its current status, including the terminal `cancelled`. -/
theorem c3_admin_table_only_guard :
    (∀ s t : Status, t ∈ adminStatusChoices s → t ∈ transitions s ∨ t = s) ∧
    (∀ (now : Time) (o : Order), (quickStopUpdate now o).status = .completed) := by
  constructor
  · intro s t ht
    cases s <;> simp_all [adminStatusChoices, transitions] <;> tauto
  · intro now o
    rfl

/-- C3 witness: the amended theorem applied at `in_progress → completed`
(a table transition the form offers) and at the cancelled order quick-stop. -/
theorem c3_admin_table_only_guard_witness :
    (Status.completed ∈ transitions .in_progress ∨ Status.completed = .in_progress) ∧
    (quickStopUpdate 600 c3Cancelled).status = .completed :=
  ⟨c3_admin_table_only_guard.1 .in_progress .completed (by decide),
   c3_admin_table_only_guard.2 600 c3Cancelled⟩

/-- C4 counterexample: re-issuing quick-stop on an already-completed order at
a later time is not a no-op — `completed_at` and `actual_duration` change
(7200 vs 3600, and 120 vs 60 minutes). -/
theorem c4_requick_not_noop_counterexample :
    (quickStopUpdate 3600 c4Started).status = .completed ∧
    (quickStopUpdate 7200 (quickStopUpdate 3600 c4Started)).completed_at ≠
      (quickStopUpdate 3600 c4Started).completed_at ∧
    (quickStopUpdate 7200 (quickStopUpdate 3600 c4Started)).actual_duration ≠
      (quickStopUpdate 3600 c4Started).actual_duration := by
  decide

/-- C4 (amended): re-issuing quick-stop on an already quick-stopped order
still reports success and leaves the status completed, but overwrites
`completed_at` with the new completion time and recomputes
`actual_duration` from it; the repeat is a genuine no-op only when it
happens at the same timestamp. -/
theorem c4_requick_overwrites :
    (∀ (t1 t2 : Time) (o : Order),
       (quickStopUpdate t2 (quickStopUpdate t1 o)).status = .completed ∧
       (quickStopUpdate t2 (quickStopUpdate t1 o)).completed_at = some t2 ∧
       (quickStopUpdate t2 (quickStopUpdate t1 o)).actual_duration =
         some (Int.fdiv (t2 - o.started_at.getD t1) 60)) ∧
    (∀ (t : Time) (o : Order),
       quickStopUpdate t (quickStopUpdate t o) = quickStopUpdate t o) := by
  constructor
  · intro t1 t2 o
    cases h : o.started_at <;> simp [quickStopUpdate, h]
  · intro t o
    cases h : o.started_at <;> simp [quickStopUpdate, h]

/-- C6 counterexample: quick-stopping an order that was never started 300
minutes (18000 s) after `created_at` records `actual_duration = 0`, not the
claimed floor of minutes since `created_at` (300): the code first sets
`started_at = now` and measures from it. -/
theorem c6_never_started_duration_counterexample :
    c6NeverStarted.started_at = none ∧
    (quickStopUpdate 18000 c6NeverStarted).actual_duration = some 0 ∧
    Int.fdiv (18000 - c6NeverStarted.created_at) 60 = 300 := by
  decide

/-- C6 (amended): quick-stop sets status completed and
`completed_at = now`, and computes `actual_duration` as the floor of minutes
between `now` and `started_at` when the order was started; for a
never-started order, `started_at` is first set to the completion time and
the recorded duration is 0. -/
theorem c6_quickstop_duration :
    ∀ (now : Time) (o : Order),
      (quickStopUpdate now o).status = .completed ∧
      (quickStopUpdate now o).completed_at = some now ∧
      (quickStopUpdate now o).actual_duration =
        some (match o.started_at with
              | some s => Int.fdiv (now - s) 60
              | none => 0) := by
  intro now o
  cases h : o.started_at <;> simp [quickStopUpdate, h, Int.zero_fdiv]

/-- C5: when StartOrder runs with `forceNewOrder = false`, no explicit
customer id and a valid order type, and the (normalised) plate resolves to a
vehicle of the caller's branch that has an open (`created`/`in_progress`)
order, the call returns that order through the `existing_order: True` early
return and leaves the database untouched — no second order, no new customer
row and no new vehicle row are created, so exactly one `created`-status
order exists for the vehicle afterwards when exactly one existed before. -/
theorem c5_second_start_returns_existing
    (db : DB) (ub : Option Nat) (now : Time) (plate : Str)
    (p : StartOrderParams) (v : Vehicle) (o : Order)
    (hplate : pyStripUpper plate ≠ ([] : Str))
    (htype : validOrderTypes.contains p.order_type = true)
    (hcust : p.existing_customer_id = none)
    (hforce : p.force_new_order = false)
    (hveh : vehicleByPlate db ub (pyStripUpper plate) = some v)
    (hopen : openOrderFor db v.id = some o) :
    apiStartOrder db ub now plate p = (.existingOrderFound o.id, db) := by
  unfold apiStartOrder apiStartOrderBody
  rw [if_neg (fun hand => hplate hand.1)]
  rw [if_neg (by rw [htype]; simp)]
  rw [hcust]
  rw [if_pos ⟨hplate, by simp [hforce]⟩]
  simp only [hveh, hopen]

/-- C5 witness: the first call on the empty database creates customer 1,
vehicle 1 and order 1 for plate `T123ABC`; the theorem applied to the
resulting database shows the second call returns order 1 as existing and
changes nothing. -/
theorem c5_second_start_returns_existing_witness :
    apiStartOrder c5Db1 (some 1) 200 c5Plate defaultStartParams =
      (.existingOrderFound 1, c5Db1) ∧
    c5Db1.orders = [c5Order1] ∧ c5Db1.vehicles = [c5Vehicle] := by
  refine ⟨?_, by decide, by decide⟩
  exact c5_second_start_returns_existing c5Db1 (some 1) 200 c5Plate
    defaultStartParams c5Vehicle c5Order1 (by decide) (by decide) rfl rfl
    (by decide) (by decide)

/-- Every successful outcome of the delay-reason step keeps the order's
overrun fields untouched (the step writes only the delay fields). -/
theorem completeDelayStep_preserves_overrun
    (reasons : List Nat) (user : Nat) (now : Time) (rid : Option Nat)
    (o o1 : Order) (h : completeDelayStep reasons user now rid o = some o1) :
    o1.overrun_reported_at = o.overrun_reported_at ∧
    o1.overrun_reported_by = o.overrun_reported_by := by
  unfold completeDelayStep at h
  split at h
  · cases rid with
    | none => simp at h
    | some r =>
      simp only [] at h
      split at h
      · rw [Option.some_inj] at h
        subst h
        exact ⟨rfl, rfl⟩
      · simp at h
  · cases rid with
    | none =>
      rw [Option.some_inj] at h
      subst h
      exact ⟨rfl, rfl⟩
    | some r =>
      simp only [] at h
      split at h
      · rw [Option.some_inj] at h
        subst h
        exact ⟨rfl, rfl⟩
      · rw [Option.some_inj] at h
        subst h
        exact ⟨rfl, rfl⟩

/-- C7 counterexample: `api_record_overrun_reason` assigns
`overrun_reported_at/by` unconditionally, so on an order whose overrun was
reported by user 1 at time 100 it overwrites both stamps — the first-written
timestamp and reporter do not persist. -/
theorem c7_record_overwrites_counterexample :
    c7Order.overrun_reported_at = some 100 ∧
    c7Order.overrun_reported_by = some 1 ∧
    recordOverrunReason 2 200 (str "second") c7Order = some c7Recorded ∧
    c7Recorded.overrun_reported_at = some 200 ∧
    c7Recorded.overrun_reported_by = some 2 := by
  decide

/-- C7 (amended): the completion comments path is sticky — once
`overrun_reported_at/by` are set, completing with comments preserves them —
but `api_record_overrun_reason` overwrites `overrun_reason`,
`overrun_reported_at` and `overrun_reported_by` on every successful call. -/
theorem c7_overrun_stickiness :
    (∀ (reasons : List Nat) (user : Nat) (now : Time) (rid : Option Nat)
       (comments : Str) (o o' : Order) (t : Time) (u : Nat),
       o.overrun_reported_at = some t → o.overrun_reported_by = some u →
       completeOrderAction reasons user now rid comments o = .completed o' →
       o'.overrun_reported_at = some t ∧ o'.overrun_reported_by = some u) ∧
    (∀ (user : Nat) (now : Time) (reason : Str) (o o' : Order),
       recordOverrunReason user now reason o = some o' →
       o'.overrun_reported_at = some now ∧ o'.overrun_reported_by = some user) := by
  constructor
  · intro reasons user now rid comments o o' t u ht hu hc
    unfold completeOrderAction at hc
    split at hc
    · split at hc <;> simp at hc
    next o1 heq =>
      obtain ⟨hp1, hp2⟩ :=
        completeDelayStep_preserves_overrun reasons user now rid o o1 heq
      by_cases hcm : pyStrip comments ≠ ([] : Str)
      · rw [if_pos hcm] at hc
        simp only [CompleteOutcome.completed.injEq] at hc
        subst hc
        simp [hp1, hp2, ht, hu]
      · rw [if_neg hcm] at hc
        simp only [CompleteOutcome.completed.injEq] at hc
        subst hc
        simp [hp1, hp2, ht, hu]
  · intro user now reason o o' h
    simp only [recordOverrunReason] at h
    split at h
    · simp at h
    · rw [Option.some_inj] at h
      subst h
      exact ⟨rfl, rfl⟩

/-- C7 witness: the amended theorem applied to `c7Order` — completing with
comments `"late"` at time 300 keeps the stamps of user 1 / time 100, while
`api_record_overrun_reason` by user 2 at time 200 replaces them. -/
theorem c7_overrun_stickiness_witness :
    (c7Completed.overrun_reported_at = some 100 ∧
     c7Completed.overrun_reported_by = some 1) ∧
    (c7Recorded.overrun_reported_at = some 200 ∧
     c7Recorded.overrun_reported_by = some 2) :=
  ⟨c7_overrun_stickiness.1 [] 9 300 none (str "late") c7Order c7Completed
     100 1 rfl rfl (by decide),
   c7_overrun_stickiness.2 2 200 (str "second") c7Order c7Recorded (by decide)⟩

/-- C8: item resolution follows strict priority.  (1) When the labour-code
candidate resolves, `resolveOrderItem` returns exactly it, ignoring the
manual and inventory candidates; (2) an active labour code with a non-empty
`item_name` resolves to its item and its brand (`Unbranded` when blank);
(3) an unknown or inactive code, or one with an empty `item_name`, does not
resolve and execution falls through without error; (4) then manual item
name/brand win; (5) then a valid inventory item id.  In particular, given
both a valid labour code with item data and a valid inventory item id, the
order ends up with the labour code's item and brand. -/
theorem c8_resolution_priority :
    (∀ (db : DB) (p : ItemResolutionParams) (o o' : Order),
       (o.type = str "sales" ∨ o.type = str "service" ∨ o.type = str "labour") →
       labourCodeCandidate db p.labour_code_id o = some o' →
       resolveOrderItem db p o = o') ∧
    (∀ (db : DB) (lid : Nat) (o : Order) (lc : LabourCode),
       db.labourCodes.find? (fun x => x.id = lid && x.is_active) = some lc →
       lc.item_name ≠ ([] : Str) →
       (labourCodeCandidate db (some lid) o).map (·.item_name) = some lc.item_name ∧
       (labourCodeCandidate db (some lid) o).map (·.brand) =
         some (if lc.brand = ([] : Str) then str "Unbranded" else lc.brand)) ∧
    (∀ (db : DB) (lid : Nat) (o : Order),
       (db.labourCodes.find? (fun x => x.id = lid && x.is_active) = none →
        labourCodeCandidate db (some lid) o = none) ∧
       (∀ lc, db.labourCodes.find? (fun x => x.id = lid && x.is_active) = some lc →
        lc.item_name = ([] : Str) → labourCodeCandidate db (some lid) o = none)) ∧
    (∀ (db : DB) (p : ItemResolutionParams) (o : Order) (nm : Str),
       (o.type = str "sales" ∨ o.type = str "service" ∨ o.type = str "labour") →
       labourCodeCandidate db p.labour_code_id o = none →
       p.item_name_manual = some nm →
       (resolveOrderItem db p o).item_name = nm ∧
       (resolveOrderItem db p o).brand = p.item_brand_manual.getD (str "Unbranded")) ∧
    (∀ (db : DB) (p : ItemResolutionParams) (o : Order) (iid : Nat) (it : InventoryItem),
       (o.type = str "sales" ∨ o.type = str "service" ∨ o.type = str "labour") →
       labourCodeCandidate db p.labour_code_id o = none →
       p.item_name_manual = none →
       p.item_id = some iid →
       db.inventoryItems.find? (fun x => x.id = iid) = some it →
       (resolveOrderItem db p o).item_name = it.name ∧
       (resolveOrderItem db p o).brand = it.brand.getD (str "Unbranded")) := by
  refine ⟨?_, ?_, ?_, ?_, ?_⟩
  · intro db p o o' htype hcand
    unfold resolveOrderItem
    rw [if_pos htype]
    simp only [hcand]
  · intro db lid o lc hfind hname
    simp only [labourCodeCandidate, hfind]
    rw [if_pos hname]
    constructor <;>
      · split <;> (try split) <;> (try split) <;> rfl
  · intro db lid o
    constructor
    · intro hfind
      simp only [labourCodeCandidate, hfind]
    · intro lc hfind hempty
      simp only [labourCodeCandidate, hfind]
      rw [if_neg (by simp [hempty])]
  · intro db p o nm htype hcand hm
    unfold resolveOrderItem
    rw [if_pos htype]
    simp only [hcand, hm]
    cases p.item_quantity <;> simp
  · intro db p o iid it htype hcand hm hid hfind
    unfold resolveOrderItem
    rw [if_pos htype]
    simp only [hcand, hm, hid, hfind]
    cases p.item_quantity <;> simp

/-- C8 witness: with a database holding active labour code 5 (item
`Tire X`, brand `Acme`) and inventory item 8, and parameters supplying the
labour code id, manual item data and the inventory id at once, resolution
returns the labour code's item data. -/
theorem c8_resolution_priority_witness :
    resolveOrderItem c8Db c8Params baseOrder = c8Resolved :=
  c8_resolution_priority.1 c8Db c8Params baseOrder c8Resolved
    (Or.inr (Or.inl rfl)) (by decide)

/-- C9 counterexample: the customer `api_start_order` synthesizes from plate
`T55` (no customer information supplied) is created with
`customer_type = personal` and no `personal_subtype`, violating the
data-model invariant. -/
theorem c9_synthesized_customer_violates :
    (apiStartOrder emptyDB (some 1) 100 c9Plate defaultStartParams).2.customers = [c9Cust] ∧
    c9Cust.customer_type = str "personal" ∧
    c9Cust.personal_subtype = none ∧
    customerInvariantSpec c9Cust = false := by
  decide

/-- C9 (amended): customers newly created through the modal path satisfy the
invariant — its validation rejects a personal customer without
`personal_subtype` and an organisational one without `organization_name` and
`tax_number` — but the customer StartOrder synthesizes from a plate is
created personal with no `personal_subtype` and violates it. -/
theorem c9_invariant_amended :
    (∀ (db : DB) (ub : Option Nat) (f : ModalCustomerForm),
       modalCustomerValid f = true →
       db.customers.find? (fun c =>
         c.branch = ub && c.full_name = f.customer_name && c.phone = some f.phone) = none →
       customerInvariantSpec (modalCreateCustomer db ub f).1 = true) ∧
    ((apiStartOrder emptyDB (some 1) 100 c9Plate defaultStartParams).2.customers = [c9Cust] ∧
     customerInvariantSpec c9Cust = false) := by
  constructor
  · intro db ub f hv hmiss
    simp only [modalCustomerValid, Bool.and_eq_true, Bool.or_eq_true,
      decide_eq_true_eq] at hv
    by_cases hp : f.customer_type = str "personal"
    · simp only [modalCreateCustomer, if_pos hp, create_or_get_customer, hmiss]
      simp only [customerInvariantSpec, hp]
      simp +decide
    · simp only [modalCreateCustomer, if_neg hp, create_or_get_customer, hmiss]
      have htype3 : f.customer_type = str "company" ∨
          f.customer_type = str "government" ∨ f.customer_type = str "ngo" := by
        tauto
      have horg2 : f.organization_name ≠ ([] : Str) ∧ f.tax_number ≠ ([] : Str) := by
        tauto
      simp only [customerInvariantSpec]
      rw [if_pos htype3]
      simp [horg2.1, horg2.2]
  · decide

/-- C9 witness: the amended theorem applied to a valid personal form (subtype
`owner`) on the empty database — the created customer satisfies the
invariant. -/
theorem c9_invariant_amended_witness :
    customerInvariantSpec (modalCreateCustomer emptyDB (some 1) c9Form).1 = true :=
  c9_invariant_amended.1 emptyDB (some 1) c9Form (by decide) (by decide)
